import Mathlib

/-!
Verification of the image-filesystem provisioning pipeline of `orcasecurity/ignite`
(`pkg/source/tar.go` together with the `dmlegacy` image-building code shipped in the
same source file): the sizing policy, the `resize2fs` output parser, the shrink
engine, the tar-extraction wrapper, the resolv.conf fallback and the
format → populate → shrink orchestration.

External processes (mkfs.ext4, e2fsck, resize2fs, tar, mount, losetup) and
syscalls are modelled by environments recording the outcome of each invocation;
the Go functions become pure Lean functions from such an environment to a result
together with a trace of the externally visible actions they performed.
Go `int64` arithmetic (which wraps on overflow) is modelled by `wrap64`.
-/

namespace Ignite

/-! ### Go 64-bit integer semantics -/

/-- Interpret an integer as a Go `int64`: reduce modulo `2^64` into
`[-2^63, 2^63)`.  This is both the `uint64 → int64` conversion and the result
of a wrapping `int64` multiplication/addition. -/
def wrap64 (x : Int) : Int := (x + 2 ^ 63) % 2 ^ 64 - 2 ^ 63

theorem wrap64_eq_self {x : Int} (h0 : 0 ≤ x) (h1 : x < 2 ^ 63) : wrap64 x = x := by
  unfold wrap64
  omega

/-! ### Character classes

`unicode.IsSpace` and `unicode.IsPunct` from the Go standard library, restricted
to the code points this development exercises.  `goIsSpace` is the complete Go
white-space set (`\t`..`\r`, space, NEL, NBSP and the Unicode `Z*` categories).
`goIsPunct` decides membership in Unicode category P; we list the ASCII
category-P code points in full together with the general/CJK punctuation used by
the localized `resize2fs` outputs.  The dash `-` (U+002D, category Pd) is in the
set; the sign `+` (U+002B, category Sm) is not, exactly as in Unicode. -/

def goIsSpace (c : Char) : Bool :=
  let n := c.toNat
  (9 ≤ n && n ≤ 13) || n == 32 || n == 0x85 || n == 0xA0 || n == 0x1680 ||
    (0x2000 ≤ n && n ≤ 0x200A) || n == 0x2028 || n == 0x2029 || n == 0x202F ||
    n == 0x205F || n == 0x3000

def goIsPunct (c : Char) : Bool :=
  let n := c.toNat
  -- ASCII: ! " # % & ' ( ) * , - . / : ; ? @ [ \ ] _ and the two braces
  (33 ≤ n && n ≤ 35) || n == 37 || n == 38 || n == 39 || (40 ≤ n && n ≤ 42) ||
    (44 ≤ n && n ≤ 47) || n == 58 || n == 59 || n == 63 || n == 64 ||
    (91 ≤ n && n ≤ 93) || n == 95 || n == 123 || n == 125 ||
    -- general punctuation: em dash, curly quotes, ellipsis
    n == 0x2014 || (0x2018 ≤ n && n ≤ 0x201F) || n == 0x2026 ||
    -- CJK punctuation: 、 。 ！ ， ： ？ (fullwidth forms as used by zh_CN resize2fs)
    n == 0x3001 || n == 0x3002 || n == 0xFF01 || n == 0xFF0C || n == 0xFF1A ||
    n == 0xFF1F

/-- The separator predicate of `parseResize2fsOutputForMinSize`:
`unicode.IsPunct(r) || unicode.IsSpace(r)`. -/
def resize2fsSep (c : Char) : Bool := goIsPunct c || goIsSpace c

/-! ### strings.FieldsFunc -/

/-- Accumulator-based splitting: `strings.FieldsFunc` returns the maximal runs
of characters not satisfying `f`, in order, with no empty fields. -/
def fieldsFuncAux (f : Char → Bool) : List Char → List Char → List (List Char)
  | [], acc => if acc.isEmpty then [] else [acc.reverse]
  | c :: cs, acc =>
    if f c then
      if acc.isEmpty then fieldsFuncAux f cs []
      else acc.reverse :: fieldsFuncAux f cs []
    else fieldsFuncAux f cs (c :: acc)

def fieldsFunc (f : Char → Bool) (s : String) : List (List Char) :=
  fieldsFuncAux f s.data []

/-- The token list the parser works on: `strings.FieldsFunc(out, punct-or-space)`. -/
def splitTokens (s : String) : List (List Char) := fieldsFunc resize2fsSep s

/-! ### strconv.ParseInt (base 10, bit size 64) -/

def digitVal? (c : Char) : Option Nat :=
  if 48 ≤ c.toNat && c.toNat ≤ 57 then some (c.toNat - 48) else none

def parseDigitsAux : List Char → Nat → Option Nat
  | [], n => some n
  | c :: cs, n =>
    match digitVal? c with
    | some d => parseDigitsAux cs (10 * n + d)
    | none => none

/-- The digit run of a decimal literal; `none` on an empty run or a non-digit. -/
def parseDigits : List Char → Option Nat
  | [] => none
  | cs => parseDigitsAux cs 0

/-- `strconv.ParseInt(s, 10, 64)`: optional sign, decimal digits, range-checked
against `int64` (out-of-range values are an error, as in Go, where the caller
only ever distinguishes `err == nil`). -/
def goParseInt64 (cs : List Char) : Option Int :=
  match cs with
  | [] => none
  | c :: rest =>
    if c = '+' then
      (parseDigits rest).bind fun n =>
        if (n : Int) ≤ 2 ^ 63 - 1 then some (n : Int) else none
    else if c = '-' then
      (parseDigits rest).bind fun n =>
        if (n : Int) ≤ 2 ^ 63 then some (-(n : Int)) else none
    else
      (parseDigits cs).bind fun n =>
        if (n : Int) ≤ 2 ^ 63 - 1 then some (n : Int) else none

/-! ### parseResize2fsOutputForMinSize -/

/-- Result of running the Go parser.  `panicked` is the runtime panic raised by
`split[len(split)-1]` when the token list is empty (index out of range); it is
distinct from returning an `error`. -/
inductive ParseOutcome where
  | ok (n : Int)
  | err (tok : List Char)
  | panicked
deriving DecidableEq

/-- `parseResize2fsOutputForMinSize`: split on punctuation/whitespace runs and
`ParseInt` the last token.  An empty token list makes the Go code index
`split[-1]`, a panic. -/
def parseResize2fsOutputForMinSize (s : String) : ParseOutcome :=
  match (splitTokens s).getLast? with
  | none => .panicked
  | some tok =>
    match goParseInt64 tok with
    | some n => .ok n
    | none => .err tok

/-- Discriminator: did the parser return a Go `error` (as opposed to a value or
a panic)? -/
def ParseOutcome.isErr : ParseOutcome → Bool
  | .err _ => true
  | _ => false

/-! ### Properties of the token splitter and the parser -/

theorem mem_of_mem_reverse_append {α : Type _} {c a : α} {as : List α}
    (h : c ∈ as.reverse ++ [a]) : c ∈ a :: as := by
  rcases List.mem_append.mp h with h1 | h1
  · exact List.mem_cons_of_mem a (List.mem_reverse.mp h1)
  · simp at h1
    subst h1
    exact List.mem_cons_self _ _

theorem fieldsFuncAux_sep_free (f : Char → Bool) :
    ∀ (l acc : List Char), (∀ c ∈ acc, f c = false) →
      ∀ t ∈ fieldsFuncAux f l acc, t ≠ [] ∧ ∀ c ∈ t, f c = false := by
  intro l
  induction l with
  | nil =>
    intro acc hacc t ht
    cases acc with
    | nil => simp [fieldsFuncAux] at ht
    | cons a as =>
      simp [fieldsFuncAux] at ht
      subst ht
      refine ⟨by simp, ?_⟩
      intro c hc
      exact hacc c (mem_of_mem_reverse_append hc)
  | cons c cs ih =>
    intro acc hacc t ht
    by_cases hf : f c = true
    · cases acc with
      | nil =>
        simp [fieldsFuncAux, hf] at ht
        exact ih [] (by simp) t ht
      | cons a as =>
        simp [fieldsFuncAux, hf] at ht
        rcases ht with rfl | hmem
        · refine ⟨by simp, ?_⟩
          intro x hx
          exact hacc x (mem_of_mem_reverse_append hx)
        · exact ih [] (by simp) t hmem
    · have hf' : f c = false := by simpa using hf
      simp only [fieldsFuncAux, hf', if_false, Bool.false_eq_true] at ht
      refine ih (c :: acc) ?_ t ht
      intro x hx
      rcases List.mem_cons.mp hx with rfl | hx
      · exact hf'
      · exact hacc x hx

/-- Every token produced by the splitter is a nonempty run containing no
punctuation or whitespace character. -/
theorem splitTokens_sep_free (s : String) :
    ∀ t ∈ splitTokens s, t ≠ [] ∧ ∀ c ∈ t, resize2fsSep c = false :=
  fieldsFuncAux_sep_free resize2fsSep s.data [] (by simp)

theorem getLast?_mem_list {α : Type _} {l : List α} {a : α}
    (h : l.getLast? = some a) : a ∈ l := by
  rcases List.mem_getLast?_eq_getLast (Option.mem_def.mpr h) with ⟨hne, rfl⟩
  exact List.getLast_mem hne

/-- Success characterization of the parser. -/
theorem parse_ok_iff (s : String) (n : Int) :
    parseResize2fsOutputForMinSize s = .ok n ↔
      ∃ tok, (splitTokens s).getLast? = some tok ∧ goParseInt64 tok = some n := by
  cases hL : (splitTokens s).getLast? with
  | none => simp [parseResize2fsOutputForMinSize, hL]
  | some tok =>
    cases hP : goParseInt64 tok with
    | none => simp [parseResize2fsOutputForMinSize, hL, hP]
    | some m =>
      simp only [parseResize2fsOutputForMinSize, hL, hP]
      constructor
      · intro he
        exact ⟨tok, rfl, by cases he; exact hP⟩
      · rintro ⟨tok2, htok2, hP2⟩
        cases htok2
        rw [hP] at hP2
        cases hP2
        rfl

/-- A token free of separator characters cannot start with a minus sign, so its
`ParseInt` value is nonnegative. -/
theorem goParseInt64_nonneg {cs : List Char} {n : Int}
    (h : goParseInt64 cs = some n) (hfree : ∀ c ∈ cs, resize2fsSep c = false) :
    0 ≤ n := by
  cases cs with
  | nil => simp [goParseInt64] at h
  | cons c rest =>
    by_cases hplus : c = '+'
    · rw [goParseInt64, if_pos hplus] at h
      cases hb : parseDigits rest with
      | none => rw [hb] at h; simp at h
      | some m =>
        rw [hb] at h
        simp only [Option.some_bind] at h
        split at h
        · cases h; exact Int.natCast_nonneg m
        · simp at h
    · by_cases hminus : c = '-'
      · exfalso
        have hc := hfree c (List.mem_cons_self c rest)
        rw [hminus] at hc
        have : resize2fsSep '-' = true := by decide
        rw [this] at hc
        exact Bool.true_eq_false.mp hc
      · rw [goParseInt64, if_neg hplus, if_neg hminus] at h
        cases hb : parseDigits (c :: rest) with
        | none => rw [hb] at h; simp at h
        | some m =>
          rw [hb] at h
          simp only [Option.some_bind] at h
          split at h
          · cases h; exact Int.natCast_nonneg m
          · simp at h

/-! ### Claim theorems about the output parser -/

/-- C2 (confirmed): whenever the output parser succeeds, its result is the
integer value of the last token obtained by splitting the input on maximal runs
of punctuation or whitespace characters (every token being a nonempty run free
of such characters); in particular it returns 5813528 on the English
`resize2fs -P` output and 61817 on the Chinese-locale output. -/
theorem parser_returns_last_token_value :
    (∀ s n, parseResize2fsOutputForMinSize s = .ok n →
      ∃ tok, (splitTokens s).getLast? = some tok ∧ goParseInt64 tok = some n)
  ∧ (∀ s, ∀ t ∈ splitTokens s, t ≠ [] ∧ ∀ c ∈ t, resize2fsSep c = false)
  ∧ parseResize2fsOutputForMinSize
      "resize2fs 1.45.3 (14-Jul-2019)\nEstimated minimum size of the filesystem: 5813528\n" = .ok 5813528
  ∧ parseResize2fsOutputForMinSize
      "resize2fs 1.44.1 (24-Mar-2018)\n预计文件系统的最小尺寸：61817" = .ok 61817 :=
  ⟨fun s n h => (parse_ok_iff s n).mp h, splitTokens_sep_free, by decide, by decide⟩

/-- Witness for C2 at a concrete input. -/
theorem parser_returns_last_token_value_witness :
    ∃ tok, (splitTokens "Estimated minimum size of the filesystem: 5813528\n").getLast? = some tok ∧
      goParseInt64 tok = some 5813528 :=
  parser_returns_last_token_value.1 "Estimated minimum size of the filesystem: 5813528\n"
    5813528 (by decide)

/-- C4 counterexample: on the empty input the token list is empty and the code
does not return an error value: indexing `split[len(split)-1]` panics with an
index-out-of-range. -/
theorem parser_empty_input_panics :
    (parseResize2fsOutputForMinSize "").isErr = false ∧
      parseResize2fsOutputForMinSize "" = .panicked := by decide

/-- C4 (amended): an input whose last token is not a valid integer yields a
parse error (e.g. "no digits here"), while an input with an empty token set
(e.g. the empty string) makes the code panic with an index-out-of-range instead
of returning an error. -/
theorem parser_failure_modes :
    (∀ s, splitTokens s = [] → parseResize2fsOutputForMinSize s = .panicked)
  ∧ (∀ s tok, (splitTokens s).getLast? = some tok → goParseInt64 tok = none →
      parseResize2fsOutputForMinSize s = .err tok)
  ∧ parseResize2fsOutputForMinSize "no digits here" = .err ['h', 'e', 'r', 'e'] := by
  refine ⟨?_, ?_, by decide⟩
  · intro s h
    simp [parseResize2fsOutputForMinSize, h]
  · intro s tok hL hP
    simp [parseResize2fsOutputForMinSize, hL, hP]

/-- Witness for C4 at concrete inputs. -/
theorem parser_failure_modes_witness :
    parseResize2fsOutputForMinSize "。。。" = .panicked
  ∧ parseResize2fsOutputForMinSize "min size abc" = .err ['a', 'b', 'c'] :=
  ⟨parser_failure_modes.1 "。。。" (by decide),
    parser_failure_modes.2.1 "min size abc" ['a', 'b', 'c'] (by decide) (by decide)⟩

/-! ### Sizing policy

`getMinimumBaseSizeBytes` and the allocation computation at the top of
`CreateImageFilesystem`. -/

/-- `strings.TrimSpace`: strip leading and trailing white space. -/
def goTrimSpace (cs : List Char) : List Char :=
  ((cs.dropWhile goIsSpace).reverse.dropWhile goIsSpace).reverse

/-- `strconv.Atoi` is `strconv.ParseInt(s, 10, 0)` with the platform 64-bit
`int`.  Go reports out-of-range values as errors; the only caller tests
`err == nil && 1 <= n && n <= 100`, which agrees with this exact-value model on
every input. -/
def goAtoi (cs : List Char) : Option Int := goParseInt64 cs

def defaultMinimumBaseSizeGB : Int := 10

def baseImageSizeMultiplier : Int := 5

def blockSize : Int := 4096

/-- The floor in bytes.  `envVal` is the value of
`IGNITE_BASE_IMAGE_MIN_SIZE_GB`, which `os.Getenv` reports as `""` when the
variable is unset. -/
def getMinimumBaseSizeBytes (envVal : String) : Int :=
  let gb : Int :=
    if envVal = "" then defaultMinimumBaseSizeGB
    else
      match goAtoi (goTrimSpace envVal.data) with
      | some n => if 1 ≤ n ∧ n ≤ 100 then n else defaultMinimumBaseSizeGB
      | none => defaultMinimumBaseSizeGB
  gb * 1024 * 1024 * 1024

/-- The allocation chosen by `CreateImageFilesystem`:
`computedSize := int64(size) * 5` in wrapping 64-bit arithmetic, raised to the
floor when smaller.  `ociSizeBytes` is the nominal OCI content size (a
`uint64` value). -/
def plannedBaseImageSize (envVal : String) (ociSizeBytes : Int) : Int :=
  let minimumBaseSizeBytes := getMinimumBaseSizeBytes envVal
  let computedSize := wrap64 (wrap64 ociSizeBytes * baseImageSizeMultiplier)
  if computedSize < minimumBaseSizeBytes then minimumBaseSizeBytes else computedSize

/-- C1 counterexample: at nominal size `2 ^ 62` the 64-bit multiplication by 5
wraps around, so the planned allocation is `2 ^ 62` bytes and not
`max(5 × 2 ^ 62, floor)`. -/
theorem sizing_plan_overflow_counterexample :
    plannedBaseImageSize "" (2 ^ 62) = 2 ^ 62 ∧
      plannedBaseImageSize "" (2 ^ 62) ≠ max (5 * 2 ^ 62) (getMinimumBaseSizeBytes "") := by
  constructor <;> decide

/-- C1 (amended): for every nominal content size `S ≥ 0` whose product `5 × S`
fits in a signed 64-bit integer, the planned allocation is `max(5 × S, floor)`;
the floor is `n × 2 ^ 30` exactly when the override (after trimming white
space) parses as an integer `n ∈ [1, 100]`, and the default `10 × 2 ^ 30`
otherwise (empty, non-numeric or out-of-range overrides).  For larger `S` the
multiplication wraps (see the counterexample). -/
theorem sizing_plan (envVal : String) (S : Int) (h0 : 0 ≤ S) (h5 : 5 * S < 2 ^ 63) :
    plannedBaseImageSize envVal S = max (5 * S) (getMinimumBaseSizeBytes envVal)
  ∧ (∀ n : Int, envVal ≠ "" → goAtoi (goTrimSpace envVal.data) = some n →
      1 ≤ n → n ≤ 100 → getMinimumBaseSizeBytes envVal = n * 2 ^ 30)
  ∧ (envVal = "" → getMinimumBaseSizeBytes envVal = 10 * 2 ^ 30)
  ∧ (goAtoi (goTrimSpace envVal.data) = none → getMinimumBaseSizeBytes envVal = 10 * 2 ^ 30)
  ∧ (∀ n : Int, goAtoi (goTrimSpace envVal.data) = some n → (n < 1 ∨ 100 < n) →
      getMinimumBaseSizeBytes envVal = 10 * 2 ^ 30) := by
  refine ⟨?_, ?_, ?_, ?_, ?_⟩
  · have hS : wrap64 S = S := wrap64_eq_self h0 (by omega)
    have hS5 : wrap64 (S * 5) = S * 5 := wrap64_eq_self (by omega) (by omega)
    simp only [plannedBaseImageSize, baseImageSizeMultiplier, hS, hS5]
    rw [max_def]
    split_ifs <;> omega
  · intro n hne hA h1 h2
    simp only [getMinimumBaseSizeBytes, if_neg hne, hA, defaultMinimumBaseSizeGB]
    rw [if_pos ⟨h1, h2⟩]
    ring
  · intro he
    simp only [getMinimumBaseSizeBytes, if_pos he, defaultMinimumBaseSizeGB]
    norm_num
  · intro hA
    by_cases he : envVal = ""
    · simp only [getMinimumBaseSizeBytes, if_pos he, defaultMinimumBaseSizeGB]
      norm_num
    · simp only [getMinimumBaseSizeBytes, if_neg he, hA, defaultMinimumBaseSizeGB]
      norm_num
  · intro n hA hout
    by_cases he : envVal = ""
    · simp only [getMinimumBaseSizeBytes, if_pos he, defaultMinimumBaseSizeGB]
      norm_num
    · have hcond : ¬(1 ≤ n ∧ n ≤ 100) := by omega
      simp only [getMinimumBaseSizeBytes, if_neg he, hA, defaultMinimumBaseSizeGB]
      rw [if_neg hcond]
      norm_num

/-- Witness for C1 at a concrete input: override `" 15 "` and size 7. -/
theorem sizing_plan_witness :
    (0 : Int) ≤ 7 ∧ 5 * (7 : Int) < 2 ^ 63 ∧
      plannedBaseImageSize " 15 " 7 = max (5 * 7) (getMinimumBaseSizeBytes " 15 ") ∧
      getMinimumBaseSizeBytes " 15 " = 15 * 2 ^ 30 :=
  ⟨by norm_num, by norm_num, (sizing_plan " 15 " 7 (by norm_num) (by norm_num)).1,
    (sizing_plan " 15 " 7 (by norm_num) (by norm_num)).2.1 15 (by decide) (by decide)
      (by norm_num) (by norm_num)⟩

/-- C10 (amended): every successful parse yields a nonnegative block count,
because the minus sign is a punctuation character and hence a token delimiter,
so the last token never carries a negative sign; and the truncation target —
the wrapping int64 product `minBlocks * 4096` — is nonnegative and equal to
the mathematical product exactly when that product is below `2 ^ 63`.  For
larger parsed counts the product wraps and can be negative (see the
counterexample at `minBlocks = 2 ^ 51`). -/
theorem parser_result_nonneg (s : String) (n : Int)
    (h : parseResize2fsOutputForMinSize s = .ok n) :
    0 ≤ n ∧ (n * blockSize < 2 ^ 63 →
      0 ≤ wrap64 (n * blockSize) ∧ wrap64 (n * blockSize) = n * blockSize) := by
  obtain ⟨tok, hL, hP⟩ := (parse_ok_iff s n).mp h
  have hn : 0 ≤ n :=
    goParseInt64_nonneg hP (splitTokens_sep_free s tok (getLast?_mem_list hL)).2
  refine ⟨hn, ?_⟩
  intro hlt
  have hprod : (0 : Int) ≤ n * blockSize :=
    mul_nonneg hn (by norm_num [blockSize])
  have heq := wrap64_eq_self hprod hlt
  rw [heq]
  exact ⟨hprod, rfl⟩

/-- Witness for C10 at a concrete input. -/
theorem parser_result_nonneg_witness :
    parseResize2fsOutputForMinSize "最小尺寸：61817" = .ok 61817
  ∧ (0 : Int) ≤ 61817
  ∧ wrap64 (61817 * blockSize) = 61817 * blockSize :=
  ⟨by decide, (parser_result_nonneg "最小尺寸：61817" 61817 (by decide)).1,
    ((parser_result_nonneg "最小尺寸：61817" 61817 (by decide)).2
      (by norm_num [blockSize])).2⟩

/-! ### The shrink engine

`getMinSize` and `resizeToMinimum`.  External invocations (loop attach and
detach, e2fsck, the two resize2fs calls, the reopen / truncate / close of the
backing file) are modelled by a `ShrinkEnv` recording each invocation's
outcome; the functions return the result Go would return together with the
trace of external actions performed.  `util.DeferErr(&err, f)` runs `f` on
every exit path, including panic unwinding, and stores its error in `err` only
when `err` is still nil (first error wins). -/

/-- Go error values, to the extent the pipeline distinguishes them.  `wrapUID`
is an error message carrying the image UID (`errors.Wrapf`/`fmt.Errorf` with
`img.GetUID()`); `wrapMsg` carries a fixed context message without the UID. -/
inductive GErr where
  | sys (msg : String)
  | tool (cmd : String) (msg : String)
  | parseFailed (tok : List Char)
  | einval
  | notFound
  | wrapUID (uid : String) (e : GErr)
  | wrapMsg (msg : String) (e : GErr)
deriving DecidableEq

/-- Does the error carry (wrap) the image identity `uid`? -/
def GErr.mentionsUID (uid : String) : GErr → Bool
  | .wrapUID u e => u == uid || e.mentionsUID uid
  | .wrapMsg _ e => e.mentionsUID uid
  | _ => false

/-- `containerd/errdefs.IsNotFound`. -/
def GErr.isNotFound : GErr → Bool
  | .notFound => true
  | _ => false

/-- Result of a Go function that can return a value, return an error, or
panic. -/
inductive Outcome (α : Type) where
  | ok (a : α)
  | err (e : GErr)
  | panicked
deriving DecidableEq

/-- Externally visible actions of the shrink engine, in order of execution. -/
inductive Act where
  | attachLoop (file : String)
  | e2fsckRun (dev : String)
  | resizeEstimate (dev : String)
  | resizeShrinkTo (dev : String) (blocks : Int)
  | detachLoop (dev : String)
  | openBacking (file : String)
  | truncateFile (file : String) (bytes : Int)
deriving DecidableEq

/-- Outcomes of the external invocations made during a shrink.  `attach` is the
`newLoopDev` result (the loop device path on success); `resizeP` is the textual
output of `resize2fs -P`; `resizeShrink` is the outcome of
`resize2fs <dev> <blocks>` as a function of the requested block count;
`truncateRes` is the outcome the OS gives a well-formed truncate. -/
structure ShrinkEnv where
  attach : Except GErr String
  e2fsck : Except GErr String
  resizeP : Except GErr String
  resizeShrink : Int → Except GErr String
  detach : Except GErr Unit
  openFile : Except GErr Unit
  truncateRes : Except GErr Unit
  closeFile : Except GErr Unit

/-- `os.File.Truncate`: a negative size is rejected by the OS with `EINVAL`;
otherwise the environment decides. -/
def osTruncate (env : ShrinkEnv) (size : Int) : Except GErr Unit :=
  if size < 0 then .error .einval else env.truncateRes

/-- `getMinSize`: attach a loop device, run `e2fsck -p -f` discarding its
result entirely (`_, _ =`), run `resize2fs -P` and parse its output, shrink the
filesystem to the parsed block count, and detach the loop device on every exit
path with first-error-wins. -/
def getMinSize (p : String) (env : ShrinkEnv) : Outcome Int × List Act :=
  match env.attach with
  | .error e => (.err e, [.attachLoop p])
  | .ok dev =>
    let deferDetach : Outcome Int → Outcome Int := fun r =>
      match r, env.detach with
      | .ok _, .error d => .err d
      | r, _ => r
    let base : List Act := [.attachLoop p, .e2fsckRun dev]
    let bodyRes : Outcome Int × List Act :=
      match env.resizeP with
      | .error e => (.err e, base ++ [.resizeEstimate dev])
      | .ok out =>
        match parseResize2fsOutputForMinSize out with
        | .panicked => (.panicked, base ++ [.resizeEstimate dev])
        | .err tok => (.err (.parseFailed tok), base ++ [.resizeEstimate dev])
        | .ok minSize =>
          match env.resizeShrink minSize with
          | .error e =>
            (.err e, base ++ [.resizeEstimate dev, .resizeShrinkTo dev minSize])
          | .ok _ =>
            (.ok minSize, base ++ [.resizeEstimate dev, .resizeShrinkTo dev minSize])
    (deferDetach bodyRes.1, bodyRes.2 ++ [.detachLoop dev])

/-- `resizeToMinimum`: get the minimum block count, reopen the backing file
directly (not the loop device), truncate it to `minSize * blockSize` — a
wrapping int64 product — and close it via a deferred first-error-wins close.
Only the truncate error is wrapped with the image UID
(`fmt.Errorf("failed to shrink image %q: %v", img.GetUID(), err)`). -/
def resizeToMinimum (uid : String) (p : String) (env : ShrinkEnv) :
    Outcome Unit × List Act :=
  match getMinSize p env with
  | (.panicked, acts) => (.panicked, acts)
  | (.err e, acts) => (.err e, acts)
  | (.ok minSize, acts) =>
    match env.openFile with
    | .error e => (.err e, acts ++ [.openBacking p])
    | .ok _ =>
      let minSizeBytes := wrap64 (minSize * blockSize)
      let acts2 := acts ++ [.openBacking p, .truncateFile p minSizeBytes]
      match osTruncate env minSizeBytes with
      | .error e => (.err (.wrapUID uid e), acts2)
      | .ok _ =>
        match env.closeFile with
        | .error c => (.err c, acts2)
        | .ok _ => (.ok (), acts2)

/-! ### Shrink-engine lemmas and claims -/

/-- Characterization of a successful `getMinSize`. -/
theorem getMinSize_ok (p : String) (env : ShrinkEnv) (m : Int) (acts : List Act)
    (h : getMinSize p env = (.ok m, acts)) :
    ∃ dev out s,
      env.attach = .ok dev ∧ env.resizeP = .ok out ∧
      parseResize2fsOutputForMinSize out = .ok m ∧ env.resizeShrink m = .ok s ∧
      env.detach = .ok () ∧
      acts = [.attachLoop p, .e2fsckRun dev, .resizeEstimate dev,
        .resizeShrinkTo dev m, .detachLoop dev] := by
  cases ha : env.attach with
  | error e => simp [getMinSize, ha] at h
  | ok dev =>
    cases hr : env.resizeP with
    | error e => simp [getMinSize, ha, hr] at h
    | ok out =>
      cases hp : parseResize2fsOutputForMinSize out with
      | panicked => simp [getMinSize, ha, hr, hp] at h
      | err tok => simp [getMinSize, ha, hr, hp] at h
      | ok m2 =>
        cases hs : env.resizeShrink m2 with
        | error e => simp [getMinSize, ha, hr, hp, hs] at h
        | ok s =>
          cases hd : env.detach with
          | error d => simp [getMinSize, ha, hr, hp, hs, hd] at h
          | ok u =>
            cases u
            simp only [getMinSize, ha, hr, hp, hs, hd] at h
            obtain ⟨hm, hacts⟩ := Prod.mk.injEq .. ▸ h
            cases hm
            exact ⟨dev, out, s, rfl, rfl, hp, hs, rfl, by simpa using hacts.symm⟩

/-- Every action of `getMinSize` remains in the trace of `resizeToMinimum`. -/
theorem getMinSize_acts_mem_resizeToMinimum (uid p : String) (env : ShrinkEnv)
    (a : Act) (ha : a ∈ (getMinSize p env).2) :
    a ∈ (resizeToMinimum uid p env).2 := by
  unfold resizeToMinimum
  cases hg : getMinSize p env with
  | mk res acts =>
    rw [hg] at ha
    cases res with
    | panicked => simpa using ha
    | err e => simpa using ha
    | ok m =>
      cases hf : env.openFile with
      | error e =>
        simp only [hf]
        exact List.mem_append_left _ ha
      | ok u =>
        cases ht : osTruncate env (wrap64 (m * blockSize)) with
        | error e =>
          simp only [hf, ht]
          exact List.mem_append_left _ ha
        | ok v =>
          cases hc : env.closeFile with
          | error c =>
            simp only [hf, ht, hc]
            exact List.mem_append_left _ ha
          | ok w =>
            simp only [hf, ht, hc]
            exact List.mem_append_left _ ha

/-- Once the loop device attaches, the `resize2fs -P` estimate is always
invoked, whatever the other outcomes. -/
theorem resizeEstimate_mem_getMinSize (p dev : String) (env : ShrinkEnv)
    (h : env.attach = .ok dev) : Act.resizeEstimate dev ∈ (getMinSize p env).2 := by
  simp only [getMinSize, h]
  cases hr : env.resizeP with
  | error e => simp [hr]
  | ok out =>
    cases hp : parseResize2fsOutputForMinSize out with
    | panicked => simp [hr, hp]
    | err tok => simp [hr, hp]
    | ok m =>
      cases hs : env.resizeShrink m with
      | error e => simp [hr, hp, hs]
      | ok s => simp [hr, hp, hs]

/-- Once the estimate parses, the shrinking `resize2fs` call is always
invoked. -/
theorem resizeShrinkTo_mem_getMinSize (p dev out : String) (m : Int)
    (env : ShrinkEnv) (h : env.attach = .ok dev) (ho : env.resizeP = .ok out)
    (hp : parseResize2fsOutputForMinSize out = .ok m) :
    Act.resizeShrinkTo dev m ∈ (getMinSize p env).2 := by
  simp only [getMinSize, h, ho, hp]
  cases hs : env.resizeShrink m with
  | error e => simp [hs]
  | ok s => simp [hs]

/-- C8 (confirmed): the result and trace of the shrink are independent of the
e2fsck outcome, whose result is discarded; whenever the attach succeeded the
engine still queries the minimum size, and whenever the estimate parses it
still performs the resize, whatever e2fsck reported. -/
theorem shrink_ignores_e2fsck (uid p : String) (env : ShrinkEnv)
    (r₁ r₂ : Except GErr String) :
    resizeToMinimum uid p { env with e2fsck := r₁ } =
      resizeToMinimum uid p { env with e2fsck := r₂ }
  ∧ (∀ dev, env.attach = .ok dev →
      Act.resizeEstimate dev ∈ (resizeToMinimum uid p { env with e2fsck := r₁ }).2)
  ∧ (∀ dev out m, env.attach = .ok dev → env.resizeP = .ok out →
      parseResize2fsOutputForMinSize out = .ok m →
      Act.resizeShrinkTo dev m ∈ (resizeToMinimum uid p { env with e2fsck := r₁ }).2) := by
  obtain ⟨a, b, c, d, e, f, g, hc⟩ := env
  refine ⟨rfl, ?_, ?_⟩
  · intro dev h
    exact getMinSize_acts_mem_resizeToMinimum uid p _ _
      (resizeEstimate_mem_getMinSize p dev _ h)
  · intro dev out m h ho hp
    exact getMinSize_acts_mem_resizeToMinimum uid p _ _
      (resizeShrinkTo_mem_getMinSize p dev out m _ h ho hp)

/-- Witness for C8: the e2fsck invocation fails, yet the shrink result is the
same as with a successful e2fsck and the estimate is still queried. -/
def c8Env : ShrinkEnv where
  attach := .ok "/dev/loop0"
  e2fsck := .error (.tool "e2fsck" "filesystem was modified")
  resizeP := .ok "Estimated minimum size of the filesystem: 100"
  resizeShrink := fun _ => .ok ""
  detach := .ok ()
  openFile := .ok ()
  truncateRes := .ok ()
  closeFile := .ok ()

/-- Witness for C8 at a concrete environment. -/
theorem shrink_ignores_e2fsck_witness :
    resizeToMinimum "u" "/img" { c8Env with e2fsck := .error (.tool "e2fsck" "filesystem was modified") } =
      resizeToMinimum "u" "/img" { c8Env with e2fsck := .ok "" }
  ∧ Act.resizeEstimate "/dev/loop0" ∈
      (resizeToMinimum "u" "/img" { c8Env with e2fsck := .error (.tool "e2fsck" "filesystem was modified") }).2 :=
  ⟨(shrink_ignores_e2fsck "u" "/img" c8Env
      (.error (.tool "e2fsck" "filesystem was modified")) (.ok "")).1,
    (shrink_ignores_e2fsck "u" "/img" c8Env
      (.error (.tool "e2fsck" "filesystem was modified")) (.ok "")).2.1 "/dev/loop0" rfl⟩

/-- C9 counterexample: a step-3 parse failure (estimate output whose last
token is not a number) aborts the shrink with the raw `strconv` error, which
does not mention the image identity at all. -/
def c9Env : ShrinkEnv where
  attach := .ok "/dev/loop0"
  e2fsck := .ok ""
  resizeP := .ok "minimum size: abc"
  resizeShrink := fun _ => .ok ""
  detach := .ok ()
  openFile := .ok ()
  truncateRes := .ok ()
  closeFile := .ok ()

/-- C9 counterexample theorem. -/
theorem shrink_errors_unwrapped_counterexample :
    (resizeToMinimum "uid-1234" "/img" c9Env).1 = .err (.parseFailed ['a', 'b', 'c'])
  ∧ GErr.mentionsUID "uid-1234" (.parseFailed ['a', 'b', 'c']) = false := by
  constructor <;> decide

/-- C9 (amended): every failure in steps 1 (attach), 3 (estimate/parse), 4
(resize) or 6 (truncate) aborts the shrink and is returned to the caller, but
only the step-6 truncate error is wrapped with the owning image's identity;
attach, estimate, parse and resize errors are returned exactly as produced. -/
theorem shrink_error_propagation (uid p : String) (env : ShrinkEnv) :
    (∀ e, env.attach = .error e →
      resizeToMinimum uid p env = (.err e, [.attachLoop p]))
  ∧ (∀ dev e, env.attach = .ok dev → env.resizeP = .error e →
      resizeToMinimum uid p env =
        (.err e, [.attachLoop p, .e2fsckRun dev, .resizeEstimate dev, .detachLoop dev]))
  ∧ (∀ dev out tok, env.attach = .ok dev → env.resizeP = .ok out →
      parseResize2fsOutputForMinSize out = .err tok →
      resizeToMinimum uid p env =
        (.err (.parseFailed tok),
          [.attachLoop p, .e2fsckRun dev, .resizeEstimate dev, .detachLoop dev]))
  ∧ (∀ dev out m e, env.attach = .ok dev → env.resizeP = .ok out →
      parseResize2fsOutputForMinSize out = .ok m → env.resizeShrink m = .error e →
      resizeToMinimum uid p env =
        (.err e,
          [.attachLoop p, .e2fsckRun dev, .resizeEstimate dev,
            .resizeShrinkTo dev m, .detachLoop dev]))
  ∧ (∀ dev out m s e, env.attach = .ok dev → env.resizeP = .ok out →
      parseResize2fsOutputForMinSize out = .ok m → env.resizeShrink m = .ok s →
      env.detach = .ok () → env.openFile = .ok () →
      osTruncate env (wrap64 (m * blockSize)) = .error e →
      (resizeToMinimum uid p env).1 = .err (.wrapUID uid e)
      ∧ GErr.mentionsUID uid (.wrapUID uid e) = true) := by
  refine ⟨?_, ?_, ?_, ?_, ?_⟩
  · intro e ha
    simp [resizeToMinimum, getMinSize, ha]
  · intro dev e ha hr
    simp [resizeToMinimum, getMinSize, ha, hr]
  · intro dev out tok ha hr hp
    simp [resizeToMinimum, getMinSize, ha, hr, hp]
  · intro dev out m e ha hr hp hs
    simp [resizeToMinimum, getMinSize, ha, hr, hp, hs]
  · intro dev out m s e ha hr hp hs hd hf ht
    refine ⟨?_, by simp [GErr.mentionsUID]⟩
    simp [resizeToMinimum, getMinSize, ha, hr, hp, hs, hd, hf, ht]

/-- Witness environment for C9: the loop attach fails. -/
def c9WitnessEnv : ShrinkEnv where
  attach := .error (.tool "losetup" "no free loop device")
  e2fsck := .ok ""
  resizeP := .ok ""
  resizeShrink := fun _ => .ok ""
  detach := .ok ()
  openFile := .ok ()
  truncateRes := .ok ()
  closeFile := .ok ()

/-- Witness for C9 at a concrete environment. -/
theorem shrink_error_propagation_witness :
    resizeToMinimum "u" "/img" c9WitnessEnv =
      (.err (.tool "losetup" "no free loop device"), [.attachLoop "/img"]) :=
  (shrink_error_propagation "u" "/img" c9WitnessEnv).1
    (.tool "losetup" "no free loop device") rfl

/-- C3 counterexample environment: every tool succeeds and the estimate is
`2 ^ 52` blocks, so the int64 byte count `2 ^ 52 * 4096 = 2 ^ 64` wraps to 0. -/
def c3Env : ShrinkEnv where
  attach := .ok "/dev/loop0"
  e2fsck := .ok ""
  resizeP := .ok "Estimated minimum size of the filesystem: 4503599627370496"
  resizeShrink := fun _ => .ok ""
  detach := .ok ()
  openFile := .ok ()
  truncateRes := .ok ()
  closeFile := .ok ()

/-- C3 counterexample: the shrink succeeds, the parsed block count is `2 ^ 52`,
yet the backing file is truncated to 0 bytes, not to `2 ^ 52 * 4096`. -/
theorem shrink_truncation_overflow_counterexample :
    (resizeToMinimum "u" "/img" c3Env).1 = .ok ()
  ∧ parseResize2fsOutputForMinSize
      "Estimated minimum size of the filesystem: 4503599627370496" = .ok 4503599627370496
  ∧ Act.truncateFile "/img" (4503599627370496 * 4096) ∉ (resizeToMinimum "u" "/img" c3Env).2
  ∧ Act.truncateFile "/img" 0 ∈ (resizeToMinimum "u" "/img" c3Env).2 := by
  refine ⟨by decide, by decide, by decide, by decide⟩

/-- C3 (amended): on a successful shrink the backing file — reopened directly,
never the loop device, which is never the target of a truncate — is truncated
to `wrap64(minBlocks * 4096)` bytes, where `minBlocks` is the block count
parsed from the resize tool estimate output; this equals `minBlocks * 4096`
exactly whenever that product does not overflow a signed 64-bit integer. -/
theorem shrink_truncates_backing_file (uid p : String) (env : ShrinkEnv)
    (tr : List Act) (h : resizeToMinimum uid p env = (.ok (), tr)) :
    ∃ out minBlocks,
      env.resizeP = .ok out ∧
      parseResize2fsOutputForMinSize out = .ok minBlocks ∧
      Act.openBacking p ∈ tr ∧
      Act.truncateFile p (wrap64 (minBlocks * blockSize)) ∈ tr ∧
      (∀ f n, Act.truncateFile f n ∈ tr →
        f = p ∧ n = wrap64 (minBlocks * blockSize)) ∧
      (0 ≤ minBlocks → minBlocks * blockSize < 2 ^ 63 →
        wrap64 (minBlocks * blockSize) = minBlocks * blockSize) := by
  unfold resizeToMinimum at h
  cases hg : getMinSize p env with
  | mk res acts =>
    rw [hg] at h
    cases res with
    | panicked => simp at h
    | err e => simp at h
    | ok m =>
      obtain ⟨dev, out, s, ha, hr, hp, hs, hd, hacts⟩ := getMinSize_ok p env m acts hg
      cases hf : env.openFile with
      | error e => simp [hf] at h
      | ok u =>
        simp only [hf] at h
        cases ht : osTruncate env (wrap64 (m * blockSize)) with
        | error e => simp [ht] at h
        | ok v =>
          simp only [ht] at h
          cases hc : env.closeFile with
          | error c => simp [hc] at h
          | ok w =>
            simp only [hc] at h
            have htr : tr =
                acts ++ [.openBacking p, .truncateFile p (wrap64 (m * blockSize))] := by
              have hsnd := congrArg Prod.snd h
              simpa using hsnd.symm
            subst htr
            subst hacts
            refine ⟨out, m, hr, hp, ?_, ?_, ?_, ?_⟩
            · simp
            · simp
            · intro f n hmem
              simp only [List.mem_append, List.mem_cons, List.not_mem_nil,
                or_false] at hmem
              rcases hmem with (h1 | h1 | h1 | h1 | h1) | h1 | h1 <;> cases h1
              exact ⟨rfl, rfl⟩
            · intro hm0 hlt
              exact wrap64_eq_self (mul_nonneg hm0 (by norm_num [blockSize])) hlt

/-- Witness environment for C3: every step succeeds with a small estimate. -/
def c3WitnessEnv : ShrinkEnv where
  attach := .ok "/dev/loop0"
  e2fsck := .ok ""
  resizeP := .ok "Estimated minimum size of the filesystem: 100000"
  resizeShrink := fun _ => .ok ""
  detach := .ok ()
  openFile := .ok ()
  truncateRes := .ok ()
  closeFile := .ok ()

/-- Witness for C3 at a concrete environment. -/
theorem shrink_truncates_backing_file_witness :
    ∃ out minBlocks,
      c3WitnessEnv.resizeP = .ok out ∧
      parseResize2fsOutputForMinSize out = .ok minBlocks ∧
      Act.openBacking "/img" ∈ (resizeToMinimum "u" "/img" c3WitnessEnv).2 ∧
      Act.truncateFile "/img" (wrap64 (minBlocks * blockSize)) ∈
        (resizeToMinimum "u" "/img" c3WitnessEnv).2 ∧
      (∀ f n, Act.truncateFile f n ∈ (resizeToMinimum "u" "/img" c3WitnessEnv).2 →
        f = "/img" ∧ n = wrap64 (minBlocks * blockSize)) ∧
      (0 ≤ minBlocks → minBlocks * blockSize < 2 ^ 63 →
        wrap64 (minBlocks * blockSize) = minBlocks * blockSize) :=
  shrink_truncates_backing_file "u" "/img" c3WitnessEnv
    (resizeToMinimum "u" "/img" c3WitnessEnv).2 (by decide)

/-- C10 counterexample environment: the estimate reports `2 ^ 51` blocks. -/
def c10Env : ShrinkEnv where
  attach := .ok "/dev/loop0"
  e2fsck := .ok ""
  resizeP := .ok "Estimated minimum size of the filesystem: 2251799813685248"
  resizeShrink := fun _ => .ok ""
  detach := .ok ()
  openFile := .ok ()
  truncateRes := .ok ()
  closeFile := .ok ()

/-- C10 counterexample: the block count `2 ^ 51` parses successfully (and is
nonnegative), but the truncation target — the wrapping int64 product
`minBlocks * 4096 = 2 ^ 63` — wraps to `-(2 ^ 63)`, a negative size, which is
exactly what the engine passes to the truncate call. -/
theorem parser_negative_truncation_target_counterexample :
    parseResize2fsOutputForMinSize
      "Estimated minimum size of the filesystem: 2251799813685248" = .ok 2251799813685248
  ∧ wrap64 (2251799813685248 * blockSize) = -(2 ^ 63)
  ∧ wrap64 (2251799813685248 * blockSize) < 0
  ∧ Act.truncateFile "/img" (-(2 ^ 63)) ∈ (resizeToMinimum "u" "/img" c10Env).2 :=
  ⟨by decide, by decide, by decide, by decide⟩

/-! ### TarExtract

`source.TarExtract` obtains a reader from the source, feeds it to a `tar -x`
child process, and — only when start and wait both succeed — invokes the
source's `Cleanup`, suppressing a not-found cleanup error.  The reader's
deferred `Close` runs on every exit path after the reader was obtained (its
error is discarded). -/

/-- Outcomes of the external operations of `TarExtract`. -/
structure TarEnv where
  reader : Except GErr Unit
  start : Except GErr Unit
  wait : Except GErr Unit
  stderrContent : String
  cleanup : Except GErr Unit

/-- Externally visible actions of `TarExtract`, in order of execution. -/
inductive TAct where
  | readerOpen
  | tarStart
  | tarWait
  | srcCleanup
  | readerClose
deriving DecidableEq

/-- `TarExtract`: the Go control flow.  Note that on a wait (extraction)
failure the function returns before `src.Cleanup()` is reached. -/
def tarExtract (env : TarEnv) : Except GErr Unit × List TAct :=
  match env.reader with
  | .error e => (.error e, [.readerOpen])
  | .ok _ =>
    match env.start with
    | .error e => (.error e, [.readerOpen, .tarStart, .readerClose])
    | .ok _ =>
      match env.wait with
      | .error e =>
        (.error (.wrapMsg
            (if env.stderrContent.length > 0 then
              "tar extract failed (stderr: " ++ env.stderrContent ++ ")"
            else "tar extract failed") e),
          [.readerOpen, .tarStart, .tarWait, .readerClose])
      | .ok _ =>
        match env.cleanup with
        | .error e =>
          (if e.isNotFound then .ok () else .error e,
            [.readerOpen, .tarStart, .tarWait, .srcCleanup, .readerClose])
        | .ok _ =>
          (.ok (), [.readerOpen, .tarStart, .tarWait, .srcCleanup, .readerClose])

/-! ### setupResolvConf -/

/-- State of the populated tree around `<tmp>/etc/resolv.conf`: whether the
parent directory exists, the size of a regular file at the path (`none` when
absent), and whether a symbolic link is present at the path. -/
structure ResolvFs where
  etcDir : Bool
  resolvFile : Option Nat
  resolvLink : Bool
deriving DecidableEq

/-- Modelled from the spec: `util.FileIsEmpty` is not part of the analysed
source file; per the spec the populate stage checks "for a non-empty resolv
configuration file in the populated tree", treating a missing file as empty.
A pre-existing symlink at the path targets `../proc/net/pnp`, which does not
exist inside the tree, so a stat that follows it reports not-found, i.e.
empty. -/
def fileIsEmpty (fs : ResolvFs) : Except GErr Bool :=
  if fs.resolvLink then .ok true
  else
    match fs.resolvFile with
    | none => .ok true
    | some sz => .ok (sz == 0)

/-- `setupResolvConf`: leave a non-empty resolv file alone; otherwise ensure
the parent directory exists (`os.MkdirAll`) and create the symlink to
`../proc/net/pnp` (`os.Symlink`, which fails with EEXIST when the path already
exists — e.g. as an empty regular file). -/
def setupResolvConf (fs : ResolvFs) : Except GErr Unit × ResolvFs :=
  match fileIsEmpty fs with
  | .error e => (.error e, fs)
  | .ok empty =>
    if !empty then (.ok (), fs)
    else
      let fs1 : ResolvFs := { fs with etcDir := true }
      if fs1.resolvFile.isSome || fs1.resolvLink then
        (.error (.sys "symlink: file exists"), fs1)
      else (.ok (), { fs1 with resolvLink := true })

/-! ### The pipeline -/

/-- Environment for the populate stage (`addFiles`): temp-dir creation, the
loop mount, the tar extraction, the state of the resolv path after extraction,
and the deferred unmount. -/
structure PopulateEnv where
  tempDir : Except GErr Unit
  mount : Except GErr Unit
  tar : TarEnv
  resolvFs : ResolvFs
  umount : Except GErr Unit

/-- `addFiles`: make a temp dir, loop-mount the image on it (wrapping a mount
failure with the image path), extract the tar, set up resolv.conf, and unmount
via a deferred first-error-wins (`util.DeferErr`). -/
def addFiles (p : String) (env : PopulateEnv) : Except GErr Unit :=
  match env.tempDir with
  | .error e => .error e
  | .ok _ =>
    match env.mount with
    | .error e => .error (.wrapMsg ("failed to mount image " ++ p) e)
    | .ok _ =>
      let body : Except GErr Unit :=
        match (tarExtract env.tar).1 with
        | .error e => .error e
        | .ok _ => (setupResolvConf env.resolvFs).1
      match body, env.umount with
      | .ok _, .error u => .error u
      | r, _ => r

/-- Environment for `CreateImageFilesystem`: file creation, allocation
(truncate to the planned size), mkfs, populate and shrink. -/
structure PipeEnv where
  create : Except GErr Unit
  truncateBase : Except GErr Unit
  mkfs : Except GErr String
  populate : PopulateEnv
  shrink : ShrinkEnv

/-- The five stages of `CreateImageFilesystem`, in source order. -/
inductive Stage where
  | create
  | allocate
  | format
  | populate
  | shrink
deriving DecidableEq

/-- `CreateImageFilesystem`: create the image file, truncate it to the planned
size, format it with mkfs.ext4, populate it (`addFiles`) and shrink it
(`resizeToMinimum`).  Create/allocate/format failures are wrapped with the
image UID; populate and shrink results are returned as produced.  The second
component lists the stages entered, in source order. -/
def createImageFilesystem (uid p : String) (env : PipeEnv) :
    Outcome Unit × List Stage :=
  match env.create with
  | .error e => (.err (.wrapUID uid e), [.create])
  | .ok _ =>
    match env.truncateBase with
    | .error e => (.err (.wrapUID uid e), [.create, .allocate])
    | .ok _ =>
      match env.mkfs with
      | .error e => (.err (.wrapUID uid e), [.create, .allocate, .format])
      | .ok _ =>
        match addFiles p env.populate with
        | .error e => (.err e, [.create, .allocate, .format, .populate])
        | .ok _ =>
          match (resizeToMinimum uid p env.shrink).1 with
          | .ok _ => (.ok (), [.create, .allocate, .format, .populate, .shrink])
          | .err e => (.err e, [.create, .allocate, .format, .populate, .shrink])
          | .panicked =>
            (.panicked, [.create, .allocate, .format, .populate, .shrink])

/-! ### Claims about TarExtract, resolv fallback and the pipeline -/

/-- C5 counterexample environment: the reader is obtained, but the tar process
exits nonzero. -/
def c5Env : TarEnv where
  reader := .ok ()
  start := .ok ()
  wait := .error (.tool "tar" "exit status 2")
  stderrContent := ""
  cleanup := .ok ()

/-- C5 counterexample: extraction fails after the reader was obtained and the
source's Cleanup is never invoked. -/
theorem tarExtract_no_cleanup_on_failure_counterexample :
    c5Env.reader = .ok ()
  ∧ (tarExtract c5Env).1 =
      .error (.wrapMsg "tar extract failed" (.tool "tar" "exit status 2"))
  ∧ TAct.srcCleanup ∉ (tarExtract c5Env).2 :=
  ⟨rfl, rfl, by decide⟩

/-- C5 (amended): once the reader is obtained, Cleanup is invoked exactly when
the tar start and wait both succeed — a failed extraction returns before
Cleanup is reached — and when Cleanup runs, a not-found error from it is
suppressed while any other Cleanup error is returned. -/
theorem tarExtract_cleanup (env : TarEnv) (hr : env.reader = .ok ()) :
    (TAct.srcCleanup ∈ (tarExtract env).2 ↔
      env.start = .ok () ∧ env.wait = .ok ())
  ∧ (∀ e, env.start = .ok () → env.wait = .ok () → env.cleanup = .error e →
      GErr.isNotFound e = true → (tarExtract env).1 = .ok ())
  ∧ (∀ e, env.start = .ok () → env.wait = .ok () → env.cleanup = .error e →
      GErr.isNotFound e = false → (tarExtract env).1 = .error e)
  ∧ (env.start = .ok () → env.wait = .ok () → env.cleanup = .ok () →
      (tarExtract env).1 = .ok ()) := by
  refine ⟨?_, ?_, ?_, ?_⟩
  · cases hst : env.start with
    | error e => simp [tarExtract, hr, hst]
    | ok u =>
      cases u
      cases hw : env.wait with
      | error e => simp [tarExtract, hr, hst, hw]
      | ok v =>
        cases v
        cases hc : env.cleanup with
        | error e => simp [tarExtract, hr, hst, hw, hc]
        | ok z =>
          cases z
          simp [tarExtract, hr, hst, hw, hc]
  · intro e hst hw hc hnf
    simp [tarExtract, hr, hst, hw, hc, hnf]
  · intro e hst hw hc hnf
    simp [tarExtract, hr, hst, hw, hc, hnf]
  · intro hst hw hc
    simp [tarExtract, hr, hst, hw, hc]

/-- Witness environment for C5: extraction succeeds and Cleanup reports
not-found. -/
def c5WitnessEnv : TarEnv where
  reader := .ok ()
  start := .ok ()
  wait := .ok ()
  stderrContent := ""
  cleanup := .error .notFound

/-- Witness for C5 at a concrete environment. -/
theorem tarExtract_cleanup_witness :
    TAct.srcCleanup ∈ (tarExtract c5WitnessEnv).2
  ∧ (tarExtract c5WitnessEnv).1 = .ok () :=
  ⟨(tarExtract_cleanup c5WitnessEnv rfl).1.mpr ⟨rfl, rfl⟩,
    (tarExtract_cleanup c5WitnessEnv rfl).2.1 .notFound rfl rfl rfl rfl⟩

/-- C6 counterexample: when the resolv file exists but is empty, the symlink
creation fails with an exists-error and no symbolic link is created. -/
theorem resolv_empty_file_counterexample :
    (setupResolvConf ⟨true, some 0, false⟩).1 = .error (.sys "symlink: file exists")
  ∧ (setupResolvConf ⟨true, some 0, false⟩).2.resolvLink = false :=
  ⟨rfl, rfl⟩

/-- C6 (amended): after extraction, a non-empty regular resolv file is left
untouched; when the resolv file is missing, the parent directory is created if
needed and a symlink to `../proc/net/pnp` is created; but when an empty resolv
file exists, the symlink attempt fails with an exists-error and no link is
created. -/
theorem resolv_fallback (fs : ResolvFs) (hnl : fs.resolvLink = false) :
    (∀ sz, fs.resolvFile = some sz → sz ≠ 0 → setupResolvConf fs = (.ok (), fs))
  ∧ (fs.resolvFile = none → setupResolvConf fs = (.ok (), ⟨true, none, true⟩))
  ∧ (fs.resolvFile = some 0 →
      (setupResolvConf fs).1 = .error (.sys "symlink: file exists")
      ∧ (setupResolvConf fs).2 = ⟨true, some 0, false⟩) := by
  refine ⟨?_, ?_, ?_⟩
  · intro sz hf hsz
    simp [setupResolvConf, fileIsEmpty, hnl, hf, hsz]
  · intro hf
    simp [setupResolvConf, fileIsEmpty, hnl, hf]
  · intro hf
    constructor <;> simp [setupResolvConf, fileIsEmpty, hnl, hf]

/-- Witness for C6 at concrete states: a missing resolv file gets the link, a
non-empty one is untouched. -/
theorem resolv_fallback_witness :
    setupResolvConf ⟨true, none, false⟩ = (.ok (), ⟨true, none, true⟩)
  ∧ setupResolvConf ⟨false, some 5, false⟩ = (.ok (), ⟨false, some 5, false⟩) :=
  ⟨(resolv_fallback ⟨true, none, false⟩ rfl).2.1 rfl,
    (resolv_fallback ⟨false, some 5, false⟩ rfl).1 5 rfl (by decide)⟩

/-- The stage trace of the pipeline is always one of the five prefixes of the
full stage list. -/
theorem pipeline_trace_cases (uid p : String) (env : PipeEnv) :
    (createImageFilesystem uid p env).2 = [Stage.create]
  ∨ (createImageFilesystem uid p env).2 = [Stage.create, .allocate]
  ∨ (createImageFilesystem uid p env).2 = [Stage.create, .allocate, .format]
  ∨ (createImageFilesystem uid p env).2 =
      [Stage.create, .allocate, .format, .populate]
  ∨ (createImageFilesystem uid p env).2 =
      [Stage.create, .allocate, .format, .populate, .shrink] := by
  cases hc : env.create with
  | error e => simp [createImageFilesystem, hc]
  | ok u =>
    cases ht : env.truncateBase with
    | error e => simp [createImageFilesystem, hc, ht]
    | ok v =>
      cases hm : env.mkfs with
      | error e => simp [createImageFilesystem, hc, ht, hm]
      | ok s =>
        cases ha : addFiles p env.populate with
        | error e => simp [createImageFilesystem, hc, ht, hm, ha]
        | ok w =>
          cases hs : (resizeToMinimum uid p env.shrink).1 with
          | ok x => simp [createImageFilesystem, hc, ht, hm, ha, hs]
          | err e => simp [createImageFilesystem, hc, ht, hm, ha, hs]
          | panicked => simp [createImageFilesystem, hc, ht, hm, ha, hs]

/-- C7 (confirmed): the pipeline enters create, allocate, format, populate and
shrink strictly in that order — its stage trace is a prefix of that list with
no stage repeated — and any stage failure short-circuits the remaining stages
and is returned: a create/allocate/format failure (image-wrapped, the format
error carrying the tool diagnostic) prevents populate and shrink, a populate
failure prevents shrink, and when the first four stages succeed the result is
exactly the shrink result. -/
theorem pipeline_order_and_short_circuit (uid p : String) (env : PipeEnv) :
    (∃ k, (createImageFilesystem uid p env).2 =
      [Stage.create, .allocate, .format, .populate, .shrink].take k)
  ∧ (createImageFilesystem uid p env).2.Nodup
  ∧ (∀ e, env.create = .error e →
      createImageFilesystem uid p env = (.err (.wrapUID uid e), [.create]))
  ∧ (∀ e, env.create = .ok () → env.truncateBase = .error e →
      createImageFilesystem uid p env =
        (.err (.wrapUID uid e), [.create, .allocate]))
  ∧ (∀ e, env.create = .ok () → env.truncateBase = .ok () → env.mkfs = .error e →
      createImageFilesystem uid p env =
        (.err (.wrapUID uid e), [.create, .allocate, .format]))
  ∧ (∀ e, env.create = .ok () → env.truncateBase = .ok () →
      (∃ s, env.mkfs = .ok s) → addFiles p env.populate = .error e →
      createImageFilesystem uid p env =
        (.err e, [.create, .allocate, .format, .populate]))
  ∧ (env.create = .ok () → env.truncateBase = .ok () →
      (∃ s, env.mkfs = .ok s) → addFiles p env.populate = .ok () →
      (createImageFilesystem uid p env).1 = (resizeToMinimum uid p env.shrink).1
      ∧ (createImageFilesystem uid p env).2 =
          [.create, .allocate, .format, .populate, .shrink]) := by
  refine ⟨?_, ?_, ?_, ?_, ?_, ?_, ?_⟩
  · rcases pipeline_trace_cases uid p env with h | h | h | h | h
    exacts [⟨1, by rw [h]; rfl⟩, ⟨2, by rw [h]; rfl⟩, ⟨3, by rw [h]; rfl⟩,
      ⟨4, by rw [h]; rfl⟩, ⟨5, by rw [h]; rfl⟩]
  · rcases pipeline_trace_cases uid p env with h | h | h | h | h <;>
      rw [h] <;> decide
  · intro e hc
    simp [createImageFilesystem, hc]
  · intro e hc ht
    simp [createImageFilesystem, hc, ht]
  · intro e hc ht hm
    simp [createImageFilesystem, hc, ht, hm]
  · rintro e hc ht ⟨s, hm⟩ ha
    simp [createImageFilesystem, hc, ht, hm, ha]
  · rintro hc ht ⟨s, hm⟩ ha
    cases hs : (resizeToMinimum uid p env.shrink).1 with
    | ok x =>
      cases x
      exact ⟨by simp [createImageFilesystem, hc, ht, hm, ha, hs],
        by simp [createImageFilesystem, hc, ht, hm, ha, hs]⟩
    | err e =>
      exact ⟨by simp [createImageFilesystem, hc, ht, hm, ha, hs],
        by simp [createImageFilesystem, hc, ht, hm, ha, hs]⟩
    | panicked =>
      exact ⟨by simp [createImageFilesystem, hc, ht, hm, ha, hs],
        by simp [createImageFilesystem, hc, ht, hm, ha, hs]⟩

/-- An all-success tar environment for the C7 witness. -/
def tarOkEnv : TarEnv where
  reader := .ok ()
  start := .ok ()
  wait := .ok ()
  stderrContent := ""
  cleanup := .ok ()

/-- An all-success populate environment for the C7 witness. -/
def popOkEnv : PopulateEnv where
  tempDir := .ok ()
  mount := .ok ()
  tar := tarOkEnv
  resolvFs := ⟨true, some 10, false⟩
  umount := .ok ()

/-- An all-success shrink environment for the C7 witness. -/
def shrinkOkEnv : ShrinkEnv where
  attach := .ok "/dev/loop1"
  e2fsck := .ok ""
  resizeP := .ok "Estimated minimum size of the filesystem: 2048"
  resizeShrink := fun _ => .ok ""
  detach := .ok ()
  openFile := .ok ()
  truncateRes := .ok ()
  closeFile := .ok ()

/-- Witness environment for C7: the formatter fails with a diagnostic. -/
def c7Env : PipeEnv where
  create := .ok ()
  truncateBase := .ok ()
  mkfs := .error (.tool "mkfs.ext4" "bad magic in superblock")
  populate := popOkEnv
  shrink := shrinkOkEnv

/-- Witness for C7 at a concrete environment. -/
theorem pipeline_order_and_short_circuit_witness :
    createImageFilesystem "u" "/img" c7Env =
      (.err (.wrapUID "u" (.tool "mkfs.ext4" "bad magic in superblock")),
        [Stage.create, .allocate, .format]) :=
  (pipeline_order_and_short_circuit "u" "/img" c7Env).2.2.2.2.1
    (.tool "mkfs.ext4" "bad magic in superblock") rfl rfl rfl

end Ignite
